import Mathlib

/-!
Verification development for the ladybug climate-data library
(EPW parser/serializer, the EPW field table, the legend/graphic-container
component and the data-type serializer), shallowly embedded from
`ladybug/epw.py`, `ladybug/legend.py`, `ladybug/graphic.py` and
`ladybug/datatype/base.py`.

Python exceptions are modelled by the inductive `PyExc`; routines that can
raise are embedded as `Except PyExc`-valued (or `Option`-valued) functions.
Python floats are modelled as exact rationals `ℚ`.
-/

set_option maxRecDepth 4000

namespace Ladybug

/-- Kinds of Python exceptions this development distinguishes.  `keyError`,
`indexError`, `valueError`, `assertionError` and `ioError` correspond to the
built-in Python exception classes of the same names. -/
inductive PyExc where
  | keyError
  | indexError
  | valueError
  | assertionError
  | ioError
  deriving DecidableEq, Repr

/-- Whether an exception is of class `IndexError` (`IndexError` itself or a
subclass of it).  In Python's builtin exception hierarchy `KeyError` and
`IndexError` are sibling subclasses of `LookupError`, so `KeyError` is not of
class `IndexError`. -/
def PyExc.isIndexErrorClass : PyExc → Bool
  | .indexError => true
  | _ => false

/-- Whether an exception is of class `LookupError` (`IndexError` and
`KeyError` both are, per Python's builtin exception hierarchy). -/
def PyExc.isLookupErrorClass : PyExc → Bool
  | .indexError => true
  | .keyError => true
  | _ => false

/-! ### Hour-alignment shifts (`epw.py`, `EPW._import_data` lines 651-657 and
`EPW.save` lines 740-745 / 763-768)

On import, for every field whose data type has `point_in_time = True` the
code pops the last element of the field's value list and inserts it at
position 0.  On save it pops position 0 and appends it at the end before
emitting lines, and in the `finally` block pops the last element and inserts
it at position 0 again.  `list.pop` on an empty Python list raises
`IndexError`, hence the `Option` results. -/

/-- Embeds `last_hour = values.pop(); values.insert(0, last_hour)` -/
def fwdShift {α : Type} (xs : List α) : Option (List α) :=
  match xs.getLast? with
  | none => none
  | some l => some (l :: xs.dropLast)

/-- Embeds `first_hour = values.pop(0); values.append(first_hour)` -/
def invShift {α : Type} (xs : List α) : Option (List α) :=
  match xs with
  | [] => none
  | v :: vs => some (vs ++ [v])

/-- The shift `_import_data` applies to one field's series: the forward
(last-to-front) move when the field's data type is point-in-time, the
identity otherwise (`epw.py` lines 651-657). -/
def importShift {α : Type} (pit : Bool) (xs : List α) : Option (List α) :=
  if pit then fwdShift xs else some xs

/-- The shift `save` applies to one field's series before emitting lines:
the inverse (front-to-end) move when the field's data type is point-in-time,
the identity otherwise (`epw.py` lines 740-745). -/
def saveShift {α : Type} (pit : Bool) (xs : List α) : Option (List α) :=
  if pit then invShift xs else some xs

theorem fwdShift_nonempty {α : Type} (xs : List α) (h : xs ≠ []) :
    fwdShift xs = some (xs.getLast h :: xs.dropLast) := by
  unfold fwdShift
  rw [List.getLast?_eq_getLast xs h]

theorem invShift_fwdShift {α : Type} (xs : List α) (h : xs ≠ []) :
    (fwdShift xs).bind invShift = some xs := by
  rw [fwdShift_nonempty xs h]
  simp [invShift, List.dropLast_append_getLast h]

theorem fwdShift_invShift {α : Type} (xs : List α) (h : xs ≠ []) :
    (invShift xs).bind fwdShift = some xs := by
  match xs with
  | [] => exact absurd rfl h
  | v :: vs =>
    have : (invShift (v :: vs)).bind fwdShift = fwdShift (vs ++ [v]) := rfl
    rw [this, fwdShift_nonempty (vs ++ [v]) (by simp)]
    simp

/-- Claim C1.  For every EPW data import, every field whose data type has
`point_in_time = true` has its last data row moved to the front of the
in-memory series (the file's final row appears at index 0), while fields
with `point_in_time = false` keep the file order; and save applies the exact
inverse shift before emitting lines, so the composition of the import shift
and the save shift reproduces the original row order for every field. -/
theorem epw_hour_alignment_roundtrip {α : Type} (pit : Bool) (xs : List α)
    (h : xs ≠ []) :
    (importShift pit xs).bind (saveShift pit) = some xs ∧
    (pit = true → (importShift pit xs).bind (fun ys => ys.head?) =
      some (xs.getLast h)) ∧
    (pit = false → importShift pit xs = some xs) := by
  refine ⟨?_, ?_, ?_⟩
  · cases pit with
    | false => simp [importShift, saveShift]
    | true =>
      simp only [importShift, saveShift, if_pos rfl]
      exact invShift_fwdShift xs h
  · intro hp
    subst hp
    simp only [importShift, if_pos rfl]
    rw [fwdShift_nonempty xs h]
    simp
  · intro hp
    subst hp
    simp [importShift]

/-- Witness for C1 at a concrete series. -/
theorem epw_hour_alignment_roundtrip_witness :
    (importShift true [3, 4, 5]).bind (saveShift true) = some [3, 4, 5] ∧
    (importShift true [3, 4, 5]).bind (fun ys => ys.head?) = some 5 := by
  have h := epw_hour_alignment_roundtrip (α := ℕ) true [3, 4, 5] (by decide)
  exact ⟨h.1, (h.2.1 rfl).trans (by decide)⟩

/-! ### The `EPW.save` state machine (`epw.py` lines 723-773)

`save` is embedded over an explicit EPW state: the IP/SI mode flag
(`_is_ip`), the leap-year flag and the list of loaded data series, each
carrying its data type's `point_in_time` flag.  Unit conversion of the data
collections (`convert_to_si` / `convert_to_ip`, delegated in the source to
each collection's own conversion logic) is abstracted by the supplied
conversion maps `toSI` and `toIP`.  Writing to disk (`write_to_file`) is
abstracted by the flag `writeOk`; a failed write raises an `IOError` after
the `try` block's `else` clause, with the `finally` block still running. -/

/-- One loaded EPW data series: the `point_in_time` flag of its data type's
header and the value list (`_values`). -/
structure EPWSeries where
  pit : Bool
  values : List ℚ
  deriving DecidableEq, Repr

/-- The EPW object state that `save`, `convert_to_si` and `convert_to_ip`
read and mutate. -/
structure EPWState where
  isIP : Bool
  isLeapYear : Bool
  data : List EPWSeries
  deriving DecidableEq, Repr

/-- Embeds `len(AnalysisPeriod(is_leap_year=...).datetimes)`: hours in the annual
period. -/
def numAnnualHours (isLeapYear : Bool) : ℕ :=
  if isLeapYear then 8784 else 8760

/-- Embeds `EPW.convert_to_si` (`epw.py` lines 787-798): converts every collection
when the state is in IP mode, then clears the flag. -/
def convertToSI (toSI : ℚ → ℚ) (st : EPWState) : EPWState :=
  if st.isIP then
    { st with isIP := false,
              data := st.data.map (fun f => { f with values := f.values.map toSI }) }
  else { st with isIP := false }

/-- Embeds `EPW.convert_to_ip` (`epw.py` lines 775-785): converts every collection
when the state is in SI mode, then sets the flag. -/
def convertToIP (toIP : ℚ → ℚ) (st : EPWState) : EPWState :=
  if st.isIP then { st with isIP := true }
  else
    { st with isIP := true,
              data := st.data.map (fun f => { f with values := f.values.map toIP }) }

/-- The first loop of `save`'s `try` block (`epw.py` lines 741-745): walk the
fields in order, applying the front-to-end move to each point-in-time field.
`pop(0)` on an empty list raises `IndexError`: the walk stops there, leaving
the earlier fields already shifted and the rest untouched, and the second
component reports failure. -/
def invShiftAll : List EPWSeries → List EPWSeries × Bool
  | [] => ([], true)
  | f :: rest =>
    if f.pit then
      match f.values with
      | [] => (f :: rest, false)
      | v :: vs =>
        let r := invShiftAll rest
        (⟨f.pit, vs ++ [v]⟩ :: r.1, r.2)
    else
      let r := invShiftAll rest
      (f :: r.1, r.2)

/-- The loop of `save`'s `finally` block (`epw.py` lines 763-768): walk the
fields in order, applying the last-to-front move to each point-in-time
field.  `pop()` on an empty list raises `IndexError`, stopping the walk. -/
def fwdShiftAll : List EPWSeries → List EPWSeries × Bool
  | [] => ([], true)
  | f :: rest =>
    if f.pit then
      match f.values.getLast? with
      | none => (f :: rest, false)
      | some l =>
        let r := fwdShiftAll rest
        (⟨f.pit, l :: f.values.dropLast⟩ :: r.1, r.2)
    else
      let r := fwdShiftAll rest
      (f :: r.1, r.2)

/-- The line-emitting loop of `save` (`epw.py` lines 747-752): one row of
values per hour of the annual period, one entry per field.  The enclosing
`save` only uses this when every series has at least `n` values, so the
out-of-range default is never read. -/
def buildRows (fields : List EPWSeries) (n : ℕ) : List (List ℚ) :=
  (List.range n).map (fun hour => fields.map (fun f => f.values.getD hour 0))

/-- The outcome of a `save` call: the emitted value rows or the exception it
raised, together with the EPW state left behind. -/
structure SaveOutcome where
  result : Except PyExc (List (List ℚ))
  final : EPWState
  deriving Repr

/-- Embeds `EPW.save` (`epw.py` lines 723-773), data phase.  Converts to SI when in
IP mode, applies the inverse hour-alignment shift inside `try`, emits one
row per annual hour (a too-short series raises `IndexError`, converted by
the `except` clause into the descriptive `ValueError` about data not being
for a full year), writes in the `else` clause (failure modelled by
`writeOk = false`), re-applies the forward shift in `finally` (an exception
there replaces the in-flight one), and only then, on the non-exceptional
path, converts back to IP when the state was originally IP. -/
def save (toSI toIP : ℚ → ℚ) (writeOk : Bool) (st : EPWState) : SaveOutcome :=
  let originallyIP := st.isIP
  let st1 := if st.isIP then convertToSI toSI st else st
  let n := numAnnualHours st1.isLeapYear
  let inv := invShiftAll st1.data
  if inv.2 = false then
    -- IndexError in the first try-loop; except raises ValueError; finally runs
    let fin := fwdShiftAll inv.1
    if fin.2 = false then
      ⟨.error .indexError, { st1 with data := fin.1 }⟩
    else
      ⟨.error .valueError, { st1 with data := fin.1 }⟩
  else if ∃ f ∈ inv.1, f.values.length < n then
    -- IndexError while emitting rows; except raises ValueError; finally runs
    let fin := fwdShiftAll inv.1
    if fin.2 = false then
      ⟨.error .indexError, { st1 with data := fin.1 }⟩
    else
      ⟨.error .valueError, { st1 with data := fin.1 }⟩
  else
    let rows := buildRows inv.1 n
    if writeOk then
      let fin := fwdShiftAll inv.1
      if fin.2 = false then
        ⟨.error .indexError, { st1 with data := fin.1 }⟩
      else
        let st2 : EPWState := { st1 with data := fin.1 }
        ⟨.ok rows, if originallyIP then convertToIP toIP st2 else st2⟩
    else
      -- write_to_file raised; finally runs, convert_to_ip is never reached
      let fin := fwdShiftAll inv.1
      if fin.2 = false then
        ⟨.error .indexError, { st1 with data := fin.1 }⟩
      else
        ⟨.error .ioError, { st1 with data := fin.1 }⟩

theorem invShiftAll_lengths (fields : List EPWSeries) :
    (invShiftAll fields).1.map (fun f => f.values.length) =
      fields.map (fun f => f.values.length) := by
  induction fields with
  | nil => rfl
  | cons f rest ih =>
    by_cases hpit : f.pit
    · match hv : f.values with
      | [] => simp [invShiftAll, hpit, hv]
      | v :: vs => simp [invShiftAll, hpit, hv, ih]
    · simp [invShiftAll, hpit, ih]

theorem exists_short_invShiftAll (fields : List EPWSeries) (n : ℕ) :
    (∃ f ∈ (invShiftAll fields).1, f.values.length < n) ↔
      (∃ f ∈ fields, f.values.length < n) := by
  have key : ∀ (l : List EPWSeries),
      (∃ f ∈ l, f.values.length < n) ↔
        (∃ m ∈ l.map (fun f => f.values.length), m < n) := by
    intro l
    constructor
    · rintro ⟨f, hf, hl⟩
      exact ⟨f.values.length, List.mem_map_of_mem _ hf, hl⟩
    · rintro ⟨m, hm, hl⟩
      rcases List.mem_map.1 hm with ⟨f, hf, rfl⟩
      exact ⟨f, hf, hl⟩
  rw [key, key, invShiftAll_lengths]

theorem fwdShiftAll_invShiftAll (fields : List EPWSeries)
    (hp : ∀ f ∈ fields, f.pit = true → f.values ≠ []) :
    (invShiftAll fields).2 = true ∧
      fwdShiftAll (invShiftAll fields).1 = (fields, true) := by
  induction fields with
  | nil => exact ⟨rfl, rfl⟩
  | cons f rest ih =>
    have ihr := ih (fun g hg => hp g (List.mem_cons_of_mem f hg))
    obtain ⟨p, w⟩ := f
    cases p with
    | false =>
      refine ⟨?_, ?_⟩
      · simp [invShiftAll, ihr.1]
      · have hcons : (invShiftAll (⟨false, w⟩ :: rest)).1 =
            ⟨false, w⟩ :: (invShiftAll rest).1 := by
          simp [invShiftAll]
        rw [hcons]
        simp [fwdShiftAll, ihr.2]
    | true =>
      have hne : w ≠ [] := hp ⟨true, w⟩ (List.mem_cons_self _ _) rfl
      match w, hne with
      | v :: vs, _ =>
        refine ⟨?_, ?_⟩
        · simp [invShiftAll, ihr.1]
        · have hcons : (invShiftAll (⟨true, v :: vs⟩ :: rest)).1 =
              ⟨true, vs ++ [v]⟩ :: (invShiftAll rest).1 := by
            simp [invShiftAll]
          rw [hcons]
          have hlast : (vs ++ [v]).getLast? = some v := by
            simp [List.getLast?_concat]
          simp [fwdShiftAll, hlast, List.dropLast_concat, ihr.2]

/-- Claim C2.  For every EPW object whose loaded point-in-time series are
nonempty (as every series produced by data import or `from_missing_values`
is) and which is in SI mode, `save` restores the in-memory hour-alignment
state on every exit path — including when writing fails — and when some data
series is shorter than the full annual period it fails with the dedicated
descriptive `ValueError` about incomplete annual data rather than
propagating a raw `IndexError`, leaving the in-memory series in their
original aligned order. -/
theorem epw_save_alignment_restored (toSI toIP : ℚ → ℚ) (writeOk : Bool)
    (st : EPWState) (hip : st.isIP = false)
    (hp : ∀ f ∈ st.data, f.pit = true → f.values ≠ []) :
    (save toSI toIP writeOk st).final.data = st.data ∧
    ((∃ f ∈ st.data, f.values.length < numAnnualHours st.isLeapYear) →
      (save toSI toIP writeOk st).result = .error .valueError) ∧
    (writeOk = false →
      (¬ ∃ f ∈ st.data, f.values.length < numAnnualHours st.isLeapYear) →
      (save toSI toIP writeOk st).result = .error .ioError) := by
  have hshift := fwdShiftAll_invShiftAll st.data hp
  have hshort := exists_short_invShiftAll st.data (numAnnualHours st.isLeapYear)
  unfold save
  rw [hip]
  simp only [if_neg Bool.false_ne_true, Bool.false_eq_true, if_false]
  by_cases hs : ∃ f ∈ st.data, f.values.length < numAnnualHours st.isLeapYear
  · simp [hshift.1, hshift.2, hshort, hs]
  · cases writeOk <;> simp [hshift.1, hshift.2, hshort, hs]

/-- Witness for C2: a one-field EPW in SI mode with a 3-value point-in-time
series (shorter than a year); save fails with the `ValueError` and the
series is back in its original order afterward. -/
theorem epw_save_alignment_restored_witness :
    (save id id true ⟨false, false, [⟨true, [1, 2, 3]⟩]⟩).final.data =
      [⟨true, [1, 2, 3]⟩] ∧
    (save id id true ⟨false, false, [⟨true, [1, 2, 3]⟩]⟩).result =
      .error .valueError := by
  have h := epw_save_alignment_restored id id true
    ⟨false, false, [⟨true, [1, 2, 3]⟩]⟩ rfl (by decide)
  exact ⟨h.1, h.2.1 (by decide)⟩

/-- Claim C8 (amended).  `save` emits the data rows from the SI-converted
series (converting first when the object is in IP mode), and on a successful
save the object's IP/SI mode is restored to what it was before the call; on
an error exit, however, the object is left in SI mode (the conversion back
to IP sits after the `try`/`finally` block and is skipped when an exception
propagates). -/
theorem epw_save_si_rows_and_mode (toSI toIP : ℚ → ℚ) (writeOk : Bool)
    (st : EPWState) :
    (∀ rows, (save toSI toIP writeOk st).result = .ok rows →
      (save toSI toIP writeOk st).final.isIP = st.isIP ∧
      rows = buildRows (invShiftAll (convertToSI toSI st).data).1
        (numAnnualHours st.isLeapYear)) ∧
    (∀ e, (save toSI toIP writeOk st).result = .error e →
      (save toSI toIP writeOk st).final.isIP = false) := by
  have hdata : (if st.isIP then convertToSI toSI st else st).data =
      (convertToSI toSI st).data := by
    cases h : st.isIP <;> simp [convertToSI, h]
  have hleap : (if st.isIP then convertToSI toSI st else st).isLeapYear =
      st.isLeapYear := by
    cases h : st.isIP <;> simp [convertToSI, h]
  have hsi : (if st.isIP then convertToSI toSI st else st).isIP = false := by
    cases h : st.isIP <;> simp [convertToSI, h]
  have hip : ∀ s : EPWState, (convertToIP toIP s).isIP = true := by
    intro s
    unfold convertToIP
    split <;> rfl
  set S := save toSI toIP writeOk st with hS
  unfold save at hS
  simp only [hdata, hleap] at hS
  constructor
  · intro rows hrows
    split at hS
    · split at hS
      · rw [hS] at hrows; cases hrows
      · rw [hS] at hrows; cases hrows
    · split at hS
      · split at hS
        · rw [hS] at hrows; cases hrows
        · rw [hS] at hrows; cases hrows
      · split at hS
        · split at hS
          · rw [hS] at hrows; cases hrows
          · rw [hS] at hrows
            cases hrows
            refine ⟨?_, rfl⟩
            rw [hS]
            cases h : st.isIP
            · simp only [h] at hsi ⊢
              exact hsi
            · simp [h, hip]
        · split at hS
          · rw [hS] at hrows; cases hrows
          · rw [hS] at hrows; cases hrows
  · intro e he
    split at hS
    · split at hS
      · rw [hS]; exact hsi
      · rw [hS]; exact hsi
    · split at hS
      · split at hS
        · rw [hS]; exact hsi
        · rw [hS]; exact hsi
      · split at hS
        · split at hS
          · rw [hS]; exact hsi
          · rw [hS] at he; cases he
        · split at hS
          · rw [hS]; exact hsi
          · rw [hS]; exact hsi

/-- Claim C8, counterexample to the original statement: an EPW in IP mode
whose (2-value, hence short) series make `save` raise the incomplete-data
`ValueError`; after the call the object is in SI mode, not its original IP
mode. -/
theorem epw_save_ip_mode_counterexample :
    (save id id true ⟨true, false, [⟨false, [1, 2]⟩]⟩).result =
      .error .valueError ∧
    (save id id true ⟨true, false, [⟨false, [1, 2]⟩]⟩).final.isIP = false ∧
    (⟨true, false, [⟨false, [1, 2]⟩]⟩ : EPWState).isIP = true := by
  refine ⟨rfl, rfl, rfl⟩

/-- Witness for C8 (amended): a successful save of a field-free IP-mode EPW
restores IP mode; a failing save leaves the object in SI mode. -/
theorem epw_save_si_rows_and_mode_witness :
    (save id id true ⟨true, false, ([] : List EPWSeries)⟩).final.isIP = true ∧
    (save id id false ⟨true, false, [⟨false, [1]⟩]⟩).final.isIP = false := by
  constructor
  · exact ((epw_save_si_rows_and_mode id id true
      ⟨true, false, ([] : List EPWSeries)⟩).1
      (buildRows (invShiftAll (convertToSI id
        ⟨true, false, ([] : List EPWSeries)⟩).data).1 (numAnnualHours false))
      (by rfl)).1
  · exact (epw_save_si_rows_and_mode id id false
      ⟨true, false, [⟨false, [1]⟩]⟩).2 PyExc.valueError rfl

/-! ### Legend parameters (`legend.py`, class `LegendParameters`)

Colors are opaque value types from the external `ladybug.color` module and
are modelled as abstract tokens (`ℕ`); the duck-typed color-shape adaptation
inside the `colors` setter is outside the embedding.  The `base_plane` and
`font` values are external geometry/text values not used by any claim; only
the `is_base_plane_default` flag is carried.  Every Python property setter
is embedded as a function returning the new state paired with the raised
exception, `(p, some e)` meaning the assignment failed leaving the object
in state `p` (in the source each `assert` precedes the attribute write). -/

structure LegendParameters where
  min : Option ℚ
  max : Option ℚ
  segment_count : ℕ
  is_segment_count_default : Bool
  colors : List ℕ
  title : String
  is_title_default : Bool
  is_base_plane_default : Bool
  continuous_colors : Bool
  continuous_legend : Bool
  ordinal_dictionary : Option (List (ℤ × String))
  decimal_count : ℕ
  include_larger_smaller : Bool
  vertical : Bool
  segment_height : ℚ
  is_segment_height_default : Bool
  segment_width : ℚ
  is_segment_width_default : Bool
  text_height : Option ℚ
  is_text_height_default : Bool
  deriving DecidableEq, Repr

/-- Stand-in for `Colorset.original()`; the identity of the colors is
irrelevant to every claim, only that there are at least two. -/
def colorsetOriginal : List ℕ := [0, 1]

/-- The attribute state at the start of `LegendParameters.__init__`
(`self._min = None; self._max = None`); every other field is assigned by a
setter before `__init__` returns, so the remaining placeholders are never
observed. -/
def blankParameters : LegendParameters :=
  { min := none, max := none, segment_count := 11,
    is_segment_count_default := true, colors := colorsetOriginal,
    title := "", is_title_default := true, is_base_plane_default := true,
    continuous_colors := true, continuous_legend := false,
    ordinal_dictionary := none, decimal_count := 2,
    include_larger_smaller := false, vertical := true,
    segment_height := 1, is_segment_height_default := true,
    segment_width := 1, is_segment_width_default := true,
    text_height := none, is_text_height_default := true }

/-- Embeds `LegendParameters.min` setter (`legend.py` lines 524-533). -/
def setMin (p : LegendParameters) (v : Option ℚ) :
    LegendParameters × Option PyExc :=
  match v with
  | none => ({ p with min := none }, none)
  | some m =>
    match p.max with
    | some M =>
      if m ≤ M then ({ p with min := some m }, none)
      else (p, some .assertionError)
    | none => ({ p with min := some m }, none)

/-- Embeds `LegendParameters.max` setter (`legend.py` lines 540-549). -/
def setMax (p : LegendParameters) (v : Option ℚ) :
    LegendParameters × Option PyExc :=
  match v with
  | none => ({ p with max := none }, none)
  | some M =>
    match p.min with
    | some m =>
      if m ≤ M then ({ p with max := some M }, none)
      else (p, some .assertionError)
    | none => ({ p with max := some M }, none)

/-- Embeds `LegendParameters.segment_count` setter (`legend.py` lines 556-567). -/
def setSegmentCount (p : LegendParameters) (v : Option ℤ) :
    LegendParameters × Option PyExc :=
  match v with
  | none =>
    ({ p with segment_count := 11, is_segment_count_default := true }, none)
  | some n =>
    if 2 ≤ n then
      ({ p with segment_count := n.toNat,
                is_segment_count_default := false }, none)
    else (p, some .assertionError)

/-- Embeds `LegendParameters.colors` setter (`legend.py` lines 574-592), with the
colors already canonical. -/
def setColors (p : LegendParameters) (v : Option (List ℕ)) :
    LegendParameters × Option PyExc :=
  match v with
  | none => ({ p with colors := colorsetOriginal }, none)
  | some cols =>
    if 1 < cols.length then ({ p with colors := cols }, none)
    else (p, some .assertionError)

/-- Embeds `LegendParameters.title` setter (`legend.py` lines 638-647). -/
def setTitle (p : LegendParameters) (v : Option String) :
    LegendParameters × Option PyExc :=
  match v with
  | none => ({ p with title := "", is_title_default := true }, none)
  | some t => ({ p with title := t, is_title_default := false }, none)

/-- Embeds `LegendParameters.base_plane` setter (`legend.py` lines 727-736); only
the default flag matters here, the plane itself being external geometry. -/
def setBasePlane (p : LegendParameters) (v : Option Unit) :
    LegendParameters × Option PyExc :=
  match v with
  | none => ({ p with is_base_plane_default := true }, none)
  | some _ => ({ p with is_base_plane_default := false }, none)

/-- Embeds `LegendParameters.ordinal_dictionary` setter (`legend.py` lines
662-672); the integer-key check is carried by the type. -/
def setOrdinalDictionary (p : LegendParameters)
    (v : Option (List (ℤ × String))) : LegendParameters × Option PyExc :=
  ({ p with ordinal_dictionary := v }, none)

/-- Embeds `LegendParameters.segment_height` setter (`legend.py` lines 746-757). -/
def setSegmentHeight (p : LegendParameters) (v : Option ℚ) :
    LegendParameters × Option PyExc :=
  match v with
  | none =>
    ({ p with segment_height := 1, is_segment_height_default := true }, none)
  | some h =>
    if 0 < h then
      ({ p with segment_height := h,
                is_segment_height_default := false }, none)
    else (p, some .assertionError)

/-- Embeds `LegendParameters.segment_width` setter (`legend.py` lines 771-782). -/
def setSegmentWidth (p : LegendParameters) (v : Option ℚ) :
    LegendParameters × Option PyExc :=
  match v with
  | none =>
    ({ p with segment_width := 1, is_segment_width_default := true }, none)
  | some w =>
    if 0 < w then
      ({ p with segment_width := w,
                is_segment_width_default := false }, none)
    else (p, some .assertionError)

/-- Embeds `LegendParameters.text_height` setter (`legend.py` lines 794-804). -/
def setTextHeight (p : LegendParameters) (v : Option ℚ) :
    LegendParameters × Option PyExc :=
  match v with
  | none => ({ p with text_height := none, is_text_height_default := true }, none)
  | some t =>
    if 0 < t then
      ({ p with text_height := some t,
                is_text_height_default := false }, none)
    else (p, some .assertionError)

/-- Sequencing of attribute assignments: a raised exception aborts the rest
of the statement sequence. -/
def chain (r : LegendParameters × Option PyExc)
    (f : LegendParameters → LegendParameters × Option PyExc) :
    LegendParameters × Option PyExc :=
  match r.2 with
  | some _ => r
  | none => f r.1

/-- Embeds `LegendParameters.__init__` (`legend.py` lines 425-464): the six
constructor arguments go through their setters in order, then the remaining
properties are assigned `None`, i.e. reset to their documented defaults. -/
def mkLegendParameters (mn mx : Option ℚ) (segCount : Option ℤ)
    (cols : Option (List ℕ)) (title : Option String) (basePlane : Option Unit) :
    LegendParameters × Option PyExc :=
  chain (chain (chain (chain (chain (setMin blankParameters mn)
    (fun p => setMax p mx))
    (fun p => setSegmentCount p segCount))
    (fun p => setColors p cols))
    (fun p => setTitle p title))
    (fun p => chain (setBasePlane p basePlane)
      (fun p => chain (setOrdinalDictionary p none)
        (fun p => chain (setSegmentHeight p none)
          (fun p => chain (setSegmentWidth p none)
            (fun p => setTextHeight p none)))))

/-- Claim C6.  For every LegendParameters object, assigning a malformed
value to a property — `segment_count < 2`, a color list with fewer than 2
colors, a non-positive `segment_height`/`segment_width`/`text_height`, or a
`min` greater than the current `max` — fails at assignment time with a
domain error (`AssertionError`) and leaves the previously stored state
unchanged. -/
theorem legend_parameter_setters_validate (p : LegendParameters) :
    (∀ n : ℤ, n < 2 → setSegmentCount p (some n) = (p, some .assertionError)) ∧
    (∀ cols : List ℕ, cols.length < 2 →
      setColors p (some cols) = (p, some .assertionError)) ∧
    (∀ h : ℚ, h ≤ 0 → setSegmentHeight p (some h) = (p, some .assertionError)) ∧
    (∀ w : ℚ, w ≤ 0 → setSegmentWidth p (some w) = (p, some .assertionError)) ∧
    (∀ t : ℚ, t ≤ 0 → setTextHeight p (some t) = (p, some .assertionError)) ∧
    (∀ m M : ℚ, p.max = some M → M < m →
      setMin p (some m) = (p, some .assertionError)) := by
  refine ⟨?_, ?_, ?_, ?_, ?_, ?_⟩
  · intro n hn
    simp [setSegmentCount, not_le.2 hn]
  · intro cols hc
    simp [setColors]
    omega
  · intro h hh
    simp [setSegmentHeight, not_lt.2 hh]
  · intro w hw
    simp [setSegmentWidth, not_lt.2 hw]
  · intro t ht
    simp [setTextHeight, not_lt.2 ht]
  · intro m M hM hlt
    simp [setMin, hM, not_le.2 hlt]

/-- Witness for C6 on a freshly constructed parameter object with
`max = 5`. -/
theorem legend_parameter_setters_validate_witness :
    setSegmentCount (mkLegendParameters none (some 5) none none none none).1
      (some 1) =
      ((mkLegendParameters none (some 5) none none none none).1,
        some .assertionError) ∧
    setMin (mkLegendParameters none (some 5) none none none none).1 (some 7) =
      ((mkLegendParameters none (some 5) none none none none).1,
        some .assertionError) := by
  have h := legend_parameter_setters_validate
    (mkLegendParameters none (some 5) none none none none).1
  exact ⟨h.1 1 (by decide), h.2.2.2.2.2 7 5 (by decide) (by decide)⟩

/-! ### The Legend (`legend.py`, class `Legend`) -/

/-- The `text_height` property getter (`legend.py` lines 790-792): the
default is `segment_height * 0.33`. -/
def LegendParameters.textHeightVal (p : LegendParameters) : ℚ :=
  if p.is_text_height_default then p.segment_height * (33 / 100)
  else p.text_height.getD 0

/-- Embeds `Legend.segment_numbers` (`legend.py` lines 250-255).  By the time this
is read, `Legend.__init__` has filled `min` and `max`, so the `getD`
defaults are never observed. -/
def segmentNumbers (p : LegendParameters) : List ℚ :=
  let stp := (p.max.getD 0 - p.min.getD 0) / ((p.segment_count : ℚ) - 1)
  (List.range p.segment_count).map (fun i => p.min.getD 0 + (i : ℚ) * stp)

/-- Left-pad a numeral with zeros to `d` characters. -/
def padZeros (d : ℕ) (s : String) : String :=
  ⟨List.replicate (d - s.length) '0'⟩ ++ s

/-- Embeds `'%.df' % q` for a nonnegative rational `q`: scale by `10^d`, round and
print integral and fractional digit groups.  Models CPython's float
formatting for values that are exact multiples of `10^-d` (the rounding of
inexact binary floats is outside the embedding). -/
def formatDecNonneg (d : ℕ) (q : ℚ) : String :=
  let scaled : ℤ := ⌊q * (10 : ℚ) ^ d + 1 / 2⌋
  let ip := scaled / (10 : ℤ) ^ d
  let fp := (scaled % (10 : ℤ) ^ d).toNat
  if d = 0 then toString ip
  else toString ip ++ "." ++ padZeros d (toString fp)

/-- Embeds `'%.df' % q` (`format_str % x` in `Legend.segment_text`). -/
def formatDec (d : ℕ) (q : ℚ) : String :=
  if q < 0 then "-" ++ formatDecNonneg d (-q) else formatDecNonneg d q

/-- Embeds `Legend.segment_text` (`legend.py` lines 194-212): numeric labels from
`segment_numbers` when no ordinal dictionary is set (with optional `<`/`>`
markers on the first and last labels), otherwise dictionary lookup at each
segment number with an empty string on a missed key. -/
def segmentText (p : LegendParameters) : List String :=
  match p.ordinal_dictionary with
  | none =>
    let seg := (segmentNumbers p).map (formatDec p.decimal_count)
    if p.include_larger_smaller then
      let seg1 := seg.set 0 ("<" ++ seg.headD "")
      seg1.set (seg1.length - 1) (">" ++ seg1.getLastD "")
    else seg
  | some dict =>
    (segmentNumbers p).map (fun x =>
      match dict.find? (fun kv => decide ((kv.1 : ℚ) = x)) with
      | some kv => kv.2
      | none => "")

/-- Embeds `int(q)` — Python truncation toward zero. -/
def intTrunc (q : ℚ) : ℤ := if q < 0 then ⌈q⌉ else ⌊q⌋

/-- Embeds `len(str(n))` for an integer `n`. -/
def intStrLen (n : ℤ) : ℕ := (toString n).length

/-- Embeds `Legend.__init__` (`legend.py` lines 98-131), applied to the private
duplicate of the supplied parameters: fill `min` from the smallest value
when unset, `max` from the largest value when unset (recording whether each
was defaulted), and, for a horizontal legend with a defaulted segment width,
derive the width from the text height, the printed width of `int(max)` and
the decimal count.  `min()`/`max()` of an empty Python sequence raises
`ValueError`; the `min`/`max`/`segment_width` assignments go through their
validating setters. -/
def legendResolve (p : LegendParameters) (values : List ℚ) :
    (LegendParameters × Bool × Bool) × Option PyExc :=
  match
    (if p.min = none then
      match values.min? with
      | none => (p, some PyExc.valueError)
      | some v => setMin p (some v)
    else (p, none)) with
  | (p1, some e) => ((p1, false, false), some e)
  | (p1, none) =>
    let isMinDef := p.min = none
    match
      (if p1.max = none then
        match values.max? with
        | none => (p1, some PyExc.valueError)
        | some v => setMax p1 (some v)
      else (p1, none)) with
    | (p2, some e) => ((p2, isMinDef, false), some e)
    | (p2, none) =>
      let isMaxDef := p1.max = none
      match
        (if ¬p2.vertical ∧ p2.is_segment_width_default then
          setSegmentWidth p2 (some (p2.textHeightVal *
            ((intStrLen (intTrunc (p2.max.getD 0)) : ℚ) +
              (p2.decimal_count : ℚ) + 2)))
        else (p2, none)) with
      | (p3, some e) => ((p3, isMinDef, isMaxDef), some e)
      | (p3, none) => ((p3, isMinDef, isMaxDef), none)

/-- Claim C3.  For every Legend whose parameters have minimum `m`, maximum
`M` and segment count `n ≥ 2`, `segment_numbers` is the tuple
`m + i * (M - m) / (n - 1)` for `i` in `0..n-1`; in particular, a legend
built over the values `0..9` with `segment_count = 6` and no ordinal
dictionary has segment text
`['0.00', '1.80', '3.60', '5.40', '7.20', '9.00']`. -/
theorem legend_segment_numbers_and_text (p : LegendParameters) (m M : ℚ)
    (n : ℕ) (hm : p.min = some m) (hM : p.max = some M)
    (hn : p.segment_count = n) (h2 : 2 ≤ n) :
    segmentNumbers p =
      (List.range n).map (fun i => m + (i : ℚ) * (M - m) / ((n : ℚ) - 1)) ∧
    (mkLegendParameters none none (some 6) none none none).2 = none ∧
    (legendResolve (mkLegendParameters none none (some 6) none none none).1
      [0, 1, 2, 3, 4, 5, 6, 7, 8, 9]).2 = none ∧
    segmentText
      (legendResolve (mkLegendParameters none none (some 6) none none none).1
        [0, 1, 2, 3, 4, 5, 6, 7, 8, 9]).1.1 =
      ["0.00", "1.80", "3.60", "5.40", "7.20", "9.00"] := by
  refine ⟨?_, by with_unfolding_all rfl, by with_unfolding_all rfl,
    by with_unfolding_all rfl⟩
  unfold segmentNumbers
  rw [hm, hM, hn]
  refine List.map_congr_left (fun i _ => ?_)
  simp only [Option.getD_some, mul_div_assoc]

/-- Witness for C3 at the legend of the claim's own example. -/
theorem legend_segment_numbers_and_text_witness :
    segmentNumbers
      (legendResolve (mkLegendParameters none none (some 6) none none none).1
        [0, 1, 2, 3, 4, 5, 6, 7, 8, 9]).1.1 =
      (List.range 6).map (fun i => 0 + (i : ℚ) * (9 - 0) / ((6 : ℚ) - 1)) := by
  exact (legend_segment_numbers_and_text
    (legendResolve (mkLegendParameters none none (some 6) none none none).1
      [0, 1, 2, 3, 4, 5, 6, 7, 8, 9]).1.1
    0 9 6 (by with_unfolding_all rfl) (by with_unfolding_all rfl)
    (by with_unfolding_all rfl) (by decide)).1

/-! ### GraphicContainer ordinal defaults (`graphic.py` lines 67-82)

When a data type carrying a categorical `unit_descr` is supplied and the
legend parameters have no ordinal dictionary yet, `GraphicContainer.__init__`
installs the map as the ordinal dictionary and derives `min`, `max` and
`segment_count` from the sorted mapped keys — each only when the
corresponding legend property is still a system default.  `sorted_keys[0]`
on an empty map raises `IndexError`; `list.index` on a value that is not a
key raises `ValueError` (which the surrounding `try` does not catch — it
only catches `IndexError`, and nothing in its body can raise one); the
assignments go through the validating setters. -/

/-- Embeds `sorted(keys)`. -/
def sortInt (l : List ℤ) : List ℤ := l.insertionSort (· ≤ ·)

/-- Embeds `sorted_keys.index(x)` where `x` is a float compared against integer
keys: the first position whose key equals `x` numerically. -/
def indexOfKey (keys : List ℤ) (x : ℚ) : Option ℕ :=
  keys.findIdx? (fun (k : ℤ) => decide ((k : ℚ) = x))

/-- The `unit_descr` block of `GraphicContainer.__init__` (`graphic.py`
lines 67-82), acting on the legend's parameter object; `isMinDef` and
`isMaxDef` are `Legend.is_min_default` / `is_max_default`. -/
def applyUnitDescr (p : LegendParameters) (isMinDef isMaxDef : Bool)
    (unitDescr : Option (List (ℤ × String))) :
    LegendParameters × Option PyExc :=
  match unitDescr with
  | none => (p, none)
  | some descr =>
    match p.ordinal_dictionary with
    | some _ => (p, none)
    | none =>
      let keys := sortInt (descr.map Prod.fst)
      chain (chain (chain (setOrdinalDictionary p (some descr))
        (fun r =>
          if isMinDef then
            match keys.head? with
            | none => (r, some .indexError)
            | some k => setMin r (some (k : ℚ))
          else (r, none)))
        (fun r =>
          if isMaxDef then
            match keys.getLast? with
            | none => (r, some .indexError)
            | some k => setMax r (some (k : ℚ))
          else (r, none)))
        (fun r =>
          if r.is_segment_count_default then
            match indexOfKey keys (r.min.getD 0),
                indexOfKey keys (r.max.getD 0) with
            | some i, some j =>
              setSegmentCount r
                (some (((keys.drop i).take (j + 1 - i)).length : ℤ))
            | _, _ => (r, some .valueError)
          else (r, none))

theorem chain_ok {r : LegendParameters × Option PyExc}
    {f : LegendParameters → LegendParameters × Option PyExc}
    {q : LegendParameters} (h : chain r f = (q, none)) :
    ∃ p', r = (p', none) ∧ f p' = (q, none) := by
  match r with
  | (p', some e) =>
    unfold chain at h
    simp at h
  | (p', none) => exact ⟨p', rfl, h⟩

theorem setMin_ok {p q : LegendParameters} {v : Option ℚ}
    (h : setMin p v = (q, none)) : q = { p with min := v } := by
  cases v with
  | none =>
    unfold setMin at h
    simp only [Prod.mk.injEq] at h
    exact h.1.symm
  | some m =>
    unfold setMin at h
    cases hM : p.max with
    | some M =>
      simp only [hM] at h
      split at h
      · simp only [Prod.mk.injEq] at h
        exact h.1.symm
      · simp only [Prod.mk.injEq] at h
        exact absurd h.2 (by simp)
    | none =>
      simp only [hM, Prod.mk.injEq] at h
      exact h.1.symm

theorem setMax_ok {p q : LegendParameters} {v : Option ℚ}
    (h : setMax p v = (q, none)) : q = { p with max := v } := by
  cases v with
  | none =>
    unfold setMax at h
    simp only [Prod.mk.injEq] at h
    exact h.1.symm
  | some M =>
    unfold setMax at h
    cases hm : p.min with
    | some m =>
      simp only [hm] at h
      split at h
      · simp only [Prod.mk.injEq] at h
        exact h.1.symm
      · simp only [Prod.mk.injEq] at h
        exact absurd h.2 (by simp)
    | none =>
      simp only [hm, Prod.mk.injEq] at h
      exact h.1.symm

theorem setSegmentCount_ok {p q : LegendParameters} {n : ℤ}
    (h : setSegmentCount p (some n) = (q, none)) :
    q = { p with segment_count := n.toNat,
                 is_segment_count_default := false } := by
  simp only [setSegmentCount] at h
  split at h
  · simp only [Prod.mk.injEq] at h
    exact h.1.symm
  · simp only [Prod.mk.injEq] at h
    exact absurd h.2 (by simp)

theorem sorted_head_le {l : List ℤ} (hs : l.Sorted (· ≤ ·)) {k0 : ℤ}
    (h : l.head? = some k0) : ∀ k ∈ l, k0 ≤ k := by
  match l with
  | [] => cases h
  | a :: rest =>
    injection h with h1
    subst h1
    intro k hk
    rcases List.mem_cons.1 hk with rfl | hk'
    · exact le_refl k
    · exact List.rel_of_sorted_cons hs k hk'

theorem sorted_le_getLast {l : List ℤ} (hs : l.Sorted (· ≤ ·)) {k1 : ℤ}
    (h : l.getLast? = some k1) : ∀ k ∈ l, k ≤ k1 := by
  induction l with
  | nil => cases h
  | cons a rest ih =>
    match rest with
    | [] =>
      injection h with h1
      subst h1
      intro k hk
      rcases List.mem_cons.1 hk with rfl | hk'
      · exact le_refl k
      · cases hk'
    | b :: rest' =>
      rw [List.getLast?_cons_cons] at h
      have hs' : (b :: rest').Sorted (· ≤ ·) := (List.sorted_cons.1 hs).2
      intro k hk
      rcases List.mem_cons.1 hk with rfl | hk'
      · have hk1 : k1 ∈ b :: rest' := List.mem_of_getLast?_eq_some h
        exact List.rel_of_sorted_cons hs k1 hk1
      · exact ih hs' h k hk'

theorem sortInt_head_le {l : List ℤ} {k0 : ℤ}
    (h : (sortInt l).head? = some k0) : ∀ k ∈ l, k0 ≤ k := by
  intro k hk
  exact sorted_head_le (List.sorted_insertionSort _ l) h k
    ((List.perm_insertionSort _ l).mem_iff.2 hk)

theorem sortInt_le_getLast {l : List ℤ} {k1 : ℤ}
    (h : (sortInt l).getLast? = some k1) : ∀ k ∈ l, k ≤ k1 := by
  intro k hk
  exact sorted_le_getLast (List.sorted_insertionSort _ l) h k
    ((List.perm_insertionSort _ l).mem_iff.2 hk)

/-- Claim C5.  For every GraphicContainer built with a data type carrying a
categorical `unit_descr` and legend parameters whose ordinal dictionary is
unset: the legend's `min` is set to the smallest mapped key only when `min`
was system-defaulted, `max` to the largest mapped key only when `max` was
system-defaulted, and `segment_count` to the number of keys between `min`
and `max` only when `segment_count` was system-defaulted; a value the user
explicitly set for any of the three is never overridden. -/
theorem graphic_ordinal_auto_defaults (p q : LegendParameters)
    (isMinDef isMaxDef : Bool) (descr : List (ℤ × String))
    (hord : p.ordinal_dictionary = none)
    (hok : applyUnitDescr p isMinDef isMaxDef (some descr) = (q, none)) :
    q.ordinal_dictionary = some descr ∧
    (isMinDef = false → q.min = p.min) ∧
    (isMinDef = true → ∃ k0, (sortInt (descr.map Prod.fst)).head? = some k0 ∧
      q.min = some (k0 : ℚ) ∧ ∀ k ∈ descr.map Prod.fst, k0 ≤ k) ∧
    (isMaxDef = false → q.max = p.max) ∧
    (isMaxDef = true → ∃ k1,
      (sortInt (descr.map Prod.fst)).getLast? = some k1 ∧
      q.max = some (k1 : ℚ) ∧ ∀ k ∈ descr.map Prod.fst, k ≤ k1) ∧
    (p.is_segment_count_default = false →
      q.segment_count = p.segment_count) ∧
    (p.is_segment_count_default = true → ∃ i j,
      indexOfKey (sortInt (descr.map Prod.fst)) (q.min.getD 0) = some i ∧
      indexOfKey (sortInt (descr.map Prod.fst)) (q.max.getD 0) = some j ∧
      q.segment_count = j + 1 - i) := by
  simp only [applyUnitDescr, hord] at hok
  obtain ⟨p3, hc3, hf4⟩ := chain_ok hok
  obtain ⟨p2, hc2, hf3⟩ := chain_ok hc3
  obtain ⟨p1, hc1, hf2⟩ := chain_ok hc2
  have hp1 : p1 = { p with ordinal_dictionary := some descr } := by
    unfold setOrdinalDictionary at hc1
    simp only [Prod.mk.injEq] at hc1
    exact hc1.1.symm
  subst hp1
  have step2 : (isMinDef = false ∧ p2 = { p with
        ordinal_dictionary := some descr }) ∨
      (isMinDef = true ∧ ∃ k0,
        (sortInt (descr.map Prod.fst)).head? = some k0 ∧
        p2 = { p with ordinal_dictionary := some descr,
                      min := some (k0 : ℚ) }) := by
    cases isMinDef
    · refine .inl ⟨rfl, ?_⟩
      simp only [Bool.false_eq_true, if_false, Prod.mk.injEq] at hf2
      exact hf2.1.symm
    · refine .inr ⟨rfl, ?_⟩
      rw [if_pos rfl] at hf2
      cases hh : (sortInt (descr.map Prod.fst)).head? with
      | none =>
        rw [hh] at hf2
        simp at hf2
      | some k0 =>
        rw [hh] at hf2
        exact ⟨k0, rfl, setMin_ok hf2⟩
  have step3 : (isMaxDef = false ∧ p3 = p2) ∨
      (isMaxDef = true ∧ ∃ k1,
        (sortInt (descr.map Prod.fst)).getLast? = some k1 ∧
        p3 = { p2 with max := some (k1 : ℚ) }) := by
    cases isMaxDef
    · refine .inl ⟨rfl, ?_⟩
      simp only [Bool.false_eq_true, if_false, Prod.mk.injEq] at hf3
      exact hf3.1.symm
    · refine .inr ⟨rfl, ?_⟩
      rw [if_pos rfl] at hf3
      cases hh : (sortInt (descr.map Prod.fst)).getLast? with
      | none =>
        rw [hh] at hf3
        simp at hf3
      | some k1 =>
        rw [hh] at hf3
        exact ⟨k1, rfl, setMax_ok hf3⟩
  have hp2min : isMinDef = false → p2.min = p.min := by
    intro hfalse
    rcases step2 with ⟨_, rfl⟩ | ⟨htrue, _⟩
    · rfl
    · rw [hfalse] at htrue
      cases htrue
  have hp2flag : p2.is_segment_count_default = p.is_segment_count_default := by
    rcases step2 with ⟨_, rfl⟩ | ⟨_, _, _, rfl⟩ <;> rfl
  have hp2seg : p2.segment_count = p.segment_count := by
    rcases step2 with ⟨_, rfl⟩ | ⟨_, _, _, rfl⟩ <;> rfl
  have hp2ord : p2.ordinal_dictionary = some descr := by
    rcases step2 with ⟨_, rfl⟩ | ⟨_, _, _, rfl⟩ <;> rfl
  have hp3min : p3.min = p2.min := by
    rcases step3 with ⟨_, rfl⟩ | ⟨_, _, _, rfl⟩ <;> rfl
  have hp3max : isMaxDef = false → p3.max = p2.max := by
    intro hfalse
    rcases step3 with ⟨_, rfl⟩ | ⟨htrue, _⟩
    · rfl
    · rw [hfalse] at htrue
      cases htrue
  have hp3flag : p3.is_segment_count_default = p.is_segment_count_default := by
    rcases step3 with ⟨_, rfl⟩ | ⟨_, _, _, rfl⟩ <;> simp [hp2flag]
  have hp3seg : p3.segment_count = p.segment_count := by
    rcases step3 with ⟨_, rfl⟩ | ⟨_, _, _, rfl⟩ <;> simp [hp2seg]
  have hp3ord : p3.ordinal_dictionary = some descr := by
    rcases step3 with ⟨_, rfl⟩ | ⟨_, _, _, rfl⟩ <;> simp [hp2ord]
  have step4 : (p.is_segment_count_default = false ∧ q = p3) ∨
      (p.is_segment_count_default = true ∧ ∃ i j,
        indexOfKey (sortInt (descr.map Prod.fst)) (p3.min.getD 0) = some i ∧
        indexOfKey (sortInt (descr.map Prod.fst)) (p3.max.getD 0) = some j ∧
        q = { p3 with
          segment_count :=
            (((((sortInt (descr.map Prod.fst)).drop i).take (j + 1 - i)).length
              : ℤ)).toNat,
          is_segment_count_default := false }) := by
    rw [hp3flag] at hf4
    cases hpf : p.is_segment_count_default
    · refine .inl ⟨rfl, ?_⟩
      rw [hpf] at hf4
      simp only [Bool.false_eq_true, if_false, Prod.mk.injEq] at hf4
      exact hf4.1.symm
    · refine .inr ⟨rfl, ?_⟩
      rw [hpf, if_pos rfl] at hf4
      cases hi : indexOfKey (sortInt (descr.map Prod.fst)) (p3.min.getD 0) with
      | none =>
        rw [hi] at hf4
        simp at hf4
      | some i =>
        rw [hi] at hf4
        cases hj : indexOfKey (sortInt (descr.map Prod.fst)) (p3.max.getD 0) with
        | none =>
          rw [hj] at hf4
          simp at hf4
        | some j =>
          rw [hj] at hf4
          exact ⟨i, j, rfl, rfl, setSegmentCount_ok hf4⟩
  have hqmin : q.min = p3.min := by
    rcases step4 with ⟨_, rfl⟩ | ⟨_, _, _, _, _, rfl⟩ <;> rfl
  have hqmax : q.max = p3.max := by
    rcases step4 with ⟨_, rfl⟩ | ⟨_, _, _, _, _, rfl⟩ <;> rfl
  have hqord : q.ordinal_dictionary = p3.ordinal_dictionary := by
    rcases step4 with ⟨_, rfl⟩ | ⟨_, _, _, _, _, rfl⟩ <;> rfl
  refine ⟨hqord.trans hp3ord, ?_, ?_, ?_, ?_, ?_, ?_⟩
  · intro hfalse
    rw [hqmin, hp3min, hp2min hfalse]
  · intro htrue
    subst htrue
    rcases step2 with ⟨hcon, _⟩ | ⟨_, k0, hh, rfl⟩
    · cases hcon
    · exact ⟨k0, hh, by rw [hqmin, hp3min], sortInt_head_le hh⟩
  · intro hfalse
    rw [hqmax, hp3max hfalse]
    rcases step2 with ⟨_, rfl⟩ | ⟨_, _, _, rfl⟩ <;> rfl
  · intro htrue
    subst htrue
    rcases step3 with ⟨hcon, _⟩ | ⟨_, k1, hh, rfl⟩
    · cases hcon
    · exact ⟨k1, hh, by rw [hqmax], sortInt_le_getLast hh⟩
  · intro hfalse
    rcases step4 with ⟨_, rfl⟩ | ⟨htrue, _⟩
    · exact hp3seg
    · rw [hfalse] at htrue
      cases htrue
  · intro htrue
    rcases step4 with ⟨hcon, _⟩ | ⟨_, i, j, hi, hj, rfl⟩
    · rw [htrue] at hcon
      cases hcon
    · refine ⟨i, j, by simpa [hqmin] using hi, by simpa [hqmax] using hj, ?_⟩
      have hjlen : j < (sortInt (descr.map Prod.fst)).length := by
        unfold indexOfKey at hj
        obtain ⟨hlen, -, -⟩ := List.findIdx?_eq_some_iff_getElem.mp hj
        exact hlen
      show ((((sortInt (descr.map Prod.fst)).drop i).take (j + 1 - i)).length
          : ℤ).toNat = j + 1 - i
      rw [List.length_take, List.length_drop, Int.toNat_natCast]
      omega

/-- Witness for C5: fresh default parameters with the categorical map
sending -1, 0, 1 to Low, Mid, High and both legend bounds system-defaulted. -/
theorem graphic_ordinal_auto_defaults_witness :
    (applyUnitDescr blankParameters true true
      (some [(-1, "Low"), (0, "Mid"), (1, "High")])).1.ordinal_dictionary =
      some [(-1, "Low"), (0, "Mid"), (1, "High")] ∧
    (applyUnitDescr blankParameters true true
      (some [(-1, "Low"), (0, "Mid"), (1, "High")])).1.min = some (-1) ∧
    (applyUnitDescr blankParameters true true
      (some [(-1, "Low"), (0, "Mid"), (1, "High")])).1.max = some 1 ∧
    (applyUnitDescr blankParameters true true
      (some [(-1, "Low"), (0, "Mid"), (1, "High")])).1.segment_count = 3 := by
  have hok : applyUnitDescr blankParameters true true
      (some [(-1, "Low"), (0, "Mid"), (1, "High")]) =
      ((applyUnitDescr blankParameters true true
        (some [(-1, "Low"), (0, "Mid"), (1, "High")])).1, none) := by
    with_unfolding_all rfl
  refine ⟨(graphic_ordinal_auto_defaults blankParameters _ true true _ rfl
    hok).1, ?_, ?_, ?_⟩
  · with_unfolding_all rfl
  · with_unfolding_all rfl
  · with_unfolding_all rfl

/-! ### Legend construction acts on a private copy (`legend.py` lines
112-131 and 888-907)

`Legend.__init__` stores `legend_parameters.duplicate()` and applies its
default fills to that duplicate, never to the caller's object.  The object
graph is modelled by an explicit heap (a list of `LegendParameters` states
indexed by address); construction appends the duplicate at a fresh address
and mutates only that address. -/

/-- Embeds `LegendParameters.__copy__` (`legend.py` lines 888-907): rebuild through
the constructor from the six constructor properties, then assign the
remaining attributes and default flags directly. -/
def copyParameters (p : LegendParameters) : LegendParameters × Option PyExc :=
  match mkLegendParameters p.min p.max (some (p.segment_count : ℤ))
      (some p.colors) (some p.title) (some ()) with
  | (_, some e) => (p, some e)
  | (r, none) =>
    ({ r with
        continuous_colors := p.continuous_colors,
        continuous_legend := p.continuous_legend,
        ordinal_dictionary := p.ordinal_dictionary,
        decimal_count := p.decimal_count,
        include_larger_smaller := p.include_larger_smaller,
        vertical := p.vertical,
        segment_height := p.segment_height,
        segment_width := p.segment_width,
        text_height := p.text_height,
        is_segment_count_default := p.is_segment_count_default,
        is_title_default := p.is_title_default,
        is_base_plane_default := p.is_base_plane_default,
        is_segment_height_default := p.is_segment_height_default,
        is_segment_width_default := p.is_segment_width_default,
        is_text_height_default := p.is_text_height_default }, none)

/-- Embeds `Legend.__init__` over the explicit heap: read the parameter object at
`pAddr`, append its duplicate at the fresh address `heap.length`, and apply
the min/max/segment-width default fills to that fresh slot only.  Returns
the new heap, the legend's parameter address and the two is-default flags,
plus any raised exception. -/
def legendInitHeap (heap : List LegendParameters) (pAddr : ℕ)
    (values : List ℚ) :
    (List LegendParameters × ℕ × Bool × Bool) × Option PyExc :=
  match heap[pAddr]? with
  | none => ((heap, 0, false, false), some .keyError)
  | some p =>
    match copyParameters p with
    | (_, some e) => ((heap, 0, false, false), some e)
    | (c, none) =>
      let addr := heap.length
      let r := legendResolve c values
      (((heap ++ [c]).set addr r.1.1, addr, r.1.2.1, r.1.2.2), r.2)

/-- Claim C10.  Constructing a Legend from a LegendParameters object `p`
operates on a private copy: the construction never mutates `p` itself (even
while filling defaulted `min`/`max`/`segment_width` on the duplicate), and
mutating `p` after construction does not change the legend's parameters. -/
theorem legend_construction_no_alias (heap : List LegendParameters)
    (pAddr : ℕ) (values : List ℚ) (p : LegendParameters)
    (hp : heap[pAddr]? = some p) :
    ((legendInitHeap heap pAddr values).1.1)[pAddr]? = some p ∧
    ((legendInitHeap heap pAddr values).2 = none →
      (legendInitHeap heap pAddr values).1.2.1 ≠ pAddr ∧
      ∀ q : LegendParameters,
        (((legendInitHeap heap pAddr values).1.1).set pAddr q)[
          (legendInitHeap heap pAddr values).1.2.1]? =
        ((legendInitHeap heap pAddr values).1.1)[
          (legendInitHeap heap pAddr values).1.2.1]?) := by
  have hlt : pAddr < heap.length := by
    by_contra hge
    rw [List.getElem?_eq_none (Nat.le_of_not_lt hge)] at hp
    cases hp
  rcases hcp : copyParameters p with ⟨c, e⟩
  cases e with
  | some err =>
    simp only [legendInitHeap, hp, hcp]
    exact ⟨trivial, fun hcon => by cases hcon⟩
  | none =>
    have hne : heap.length ≠ pAddr := Nat.ne_of_gt hlt
    simp only [legendInitHeap, hp, hcp]
    refine ⟨?_, fun _ => ⟨hne, fun q => ?_⟩⟩
    · rw [List.getElem?_set_ne hne, List.getElem?_append_left hlt]
      exact hp
    · rw [List.getElem?_set_ne (Ne.symm hne)]

/-- Witness for C10: a one-object heap holding fresh default parameters and
a two-value legend (both `min` and `max` get filled on the duplicate). -/
theorem legend_construction_no_alias_witness :
    ((legendInitHeap [blankParameters] 0 [1, 2]).1.1)[0]? =
      some blankParameters ∧
    (legendInitHeap [blankParameters] 0 [1, 2]).1.2.1 ≠ 0 := by
  have h := legend_construction_no_alias [blankParameters] 0 [1, 2]
    blankParameters rfl
  exact ⟨h.1, (h.2 (by with_unfolding_all rfl)).1⟩

/-! ### The EPW field table (`epw.py`, `EPWFields.FIELDS` lines 1396-1625 and
`EPWFields.field_by_number` lines 1627-1667)

`FIELDS` is a Python dict keyed by the integer field number; `field_by_number`
subscripts it directly, so a number outside the table raises `KeyError` (a
`LookupError`, sibling — not subclass — of `IndexError`). -/

/-- The declared raw value type of an EPW column (`int`, `float`, `str`). -/
inductive EPWValueType where
  | int
  | real
  | text
  deriving DecidableEq, Repr

/-- One `EPWField` descriptor (`epw.py` lines 1679-1700): the DataType
instance (identified by its variant class name, or the generic display name
for `GenericType` entries), the decoding value type, the unit, the optional
missing sentinel and the optional bounds. -/
structure EPWFieldSpec where
  typeName : String
  valueType : EPWValueType
  unit : String
  missing : Option ℚ
  minBound : Option ℚ
  maxBound : Option ℚ
  deriving DecidableEq, Repr

/-- Embeds `EPWFields.FIELDS` (`epw.py` lines 1396-1625), as the partial map from
field number to descriptor that the Python dict denotes. -/
def FIELDS (n : ℤ) : Option EPWFieldSpec :=
  if n = 0 then some ⟨"Year", .int, "yr", none, none, none⟩
  else if n = 1 then some ⟨"Month", .int, "mon", none, none, none⟩
  else if n = 2 then some ⟨"Day", .int, "day", none, none, none⟩
  else if n = 3 then some ⟨"Hour", .int, "hr", none, none, none⟩
  else if n = 4 then some ⟨"Minute", .int, "min", none, none, none⟩
  else if n = 5 then some ⟨"Uncertainty Flags", .text, "flag", none, none, none⟩
  else if n = 6 then
    some ⟨"DryBulbTemperature", .real, "C", some 99.9, some (-70), some 70⟩
  else if n = 7 then
    some ⟨"DewPointTemperature", .real, "C", some 99.9, some (-70), some 70⟩
  else if n = 8 then
    some ⟨"RelativeHumidity", .int, "%", some 999, some 0, some 110⟩
  else if n = 9 then
    some ⟨"AtmosphericStationPressure", .int, "Pa", some 999999,
      some 31000, some 120000⟩
  else if n = 10 then
    some ⟨"ExtraterrestrialHorizontalRadiation", .int, "Wh/m2", some 9999,
      some 0, none⟩
  else if n = 11 then
    some ⟨"ExtraterrestrialDirectNormalRadiation", .int, "Wh/m2", some 9999,
      some 0, none⟩
  else if n = 12 then
    some ⟨"HorizontalInfraredRadiationIntensity", .int, "W/m2", some 9999,
      some 0, none⟩
  else if n = 13 then
    some ⟨"GlobalHorizontalRadiation", .int, "Wh/m2", some 9999, some 0, none⟩
  else if n = 14 then
    some ⟨"DirectNormalRadiation", .int, "Wh/m2", some 9999, some 0, none⟩
  else if n = 15 then
    some ⟨"DiffuseHorizontalRadiation", .int, "Wh/m2", some 9999, some 0, none⟩
  else if n = 16 then
    some ⟨"GlobalHorizontalIlluminance", .int, "lux", some 999999, some 0, none⟩
  else if n = 17 then
    some ⟨"DirectNormalIlluminance", .int, "lux", some 999999, some 0, none⟩
  else if n = 18 then
    some ⟨"DiffuseHorizontalIlluminance", .int, "lux", some 999999,
      some 0, none⟩
  else if n = 19 then
    some ⟨"ZenithLuminance", .int, "cd/m2", some 9999, some 0, none⟩
  else if n = 20 then
    some ⟨"WindDirection", .int, "degrees", some 999, some 0, some 360⟩
  else if n = 21 then
    some ⟨"WindSpeed", .real, "m/s", some 999, some 0, some 40⟩
  else if n = 22 then
    some ⟨"TotalSkyCover", .int, "tenths", some 99, some 0, some 10⟩
  else if n = 23 then
    some ⟨"OpaqueSkyCover", .int, "tenths", some 99, none, none⟩
  else if n = 24 then
    some ⟨"Visibility", .real, "km", some 9999, none, none⟩
  else if n = 25 then
    some ⟨"CeilingHeight", .int, "m", some 99999, none, none⟩
  else if n = 26 then
    some ⟨"Present Weather Observation", .int, "observation", some 9,
      none, none⟩
  else if n = 27 then
    some ⟨"Present Weather Codes", .int, "codes", some 999999999, none, none⟩
  else if n = 28 then
    some ⟨"PrecipitableWater", .int, "mm", some 999, none, none⟩
  else if n = 29 then
    some ⟨"AerosolOpticalDepth", .real, "fraction", some 999, none, none⟩
  else if n = 30 then
    some ⟨"SnowDepth", .int, "cm", some 999, none, none⟩
  else if n = 31 then
    some ⟨"Days Since Last Snowfall", .int, "day", some 99, none, none⟩
  else if n = 32 then
    some ⟨"Albedo", .real, "fraction", some 999, none, none⟩
  else if n = 33 then
    some ⟨"LiquidPrecipitationDepth", .real, "mm", some 999, none, none⟩
  else if n = 34 then
    some ⟨"LiquidPrecipitationQuantity", .real, "fraction", some 99,
      none, none⟩
  else none

/-- Embeds `EPWFields.field_by_number` (`epw.py` lines 1627-1667):
`EPWField(cls.FIELDS[field_number])`; a missing dict key raises
`KeyError`. -/
def fieldByNumber (n : ℤ) : Except PyExc EPWFieldSpec :=
  match FIELDS n with
  | some f => .ok f
  | none => .error .keyError

/-- Claim C9, counterexample to the original statement: `field_by_number 35`
raises `KeyError`, which is not of class `IndexError` (they are sibling
subclasses of `LookupError`). -/
theorem field_by_number_keyerror_counterexample :
    fieldByNumber 35 = .error .keyError ∧
    PyExc.keyError.isIndexErrorClass = false ∧
    PyExc.keyError.isLookupErrorClass = true := by
  refine ⟨by with_unfolding_all rfl, rfl, rfl⟩

/-- Claim C9 (amended).  `field_by_number n` returns the field descriptor
for every `n` in `[0, 34]`, and fails with a `KeyError` — a `LookupError`,
though not an `IndexError` — for every `n` outside `[0, 34]`. -/
theorem field_by_number_total_on_range (n : ℤ) :
    (0 ≤ n → n ≤ 34 → ∃ f, fieldByNumber n = .ok f) ∧
    (n < 0 ∨ 34 < n →
      fieldByNumber n = .error .keyError ∧
      PyExc.keyError.isLookupErrorClass = true ∧
      PyExc.keyError.isIndexErrorClass = false) := by
  constructor
  · intro h0 h34
    interval_cases n <;> exact ⟨_, by with_unfolding_all rfl⟩
  · intro hout
    refine ⟨?_, rfl, rfl⟩
    unfold fieldByNumber FIELDS
    iterate 35 rw [if_neg (by omega)]

/-- Witness for C9 (amended) at `n = 6` and `n = 35`. -/
theorem field_by_number_total_on_range_witness :
    (∃ f, fieldByNumber 6 = .ok f) ∧
    fieldByNumber 35 = .error .keyError := by
  refine ⟨(field_by_number_total_on_range 6).1 (by decide) (by decide), ?_⟩
  exact ((field_by_number_total_on_range 35).2 (by decide)).1

/-! ### `EPW.from_missing_values` (`epw.py` lines 104-178)

The constructor builds all 35 series without touching any file: columns
0-5 are synthesized from the annual `AnalysisPeriod`'s datetimes plus the
fixed uncertainty-flag string, and every later column is filled with the
field's missing sentinel (`field.missing if field.missing is not None else
0`) for every hour. -/

/-- One hourly timestamp of the annual analysis period. -/
structure LBDateTime where
  year : ℤ
  month : ℕ
  day : ℕ
  hour : ℕ
  deriving DecidableEq, Repr

/-- Modelled from the spec: the month lengths of the annual period implied
by the leap-year flag (`analysisperiod.py` is not part of the source
tree; §3 of the specification fixes the annual period to 8760 or 8784
hourly slots sharing one anchor). -/
def daysInMonth (isLeapYear : Bool) (m : ℕ) : ℕ :=
  if m = 2 then (if isLeapYear then 29 else 28)
  else if m = 4 ∨ m = 6 ∨ m = 9 ∨ m = 11 then 30
  else 31

/-- Modelled from the spec: `AnalysisPeriod(is_leap_year=...).datetimes` —
one timestamp per hour of the year, Jan 1 hour 0 through Dec 31 hour 23,
hours running 0-23 (`analysisperiod.py` is not in the source tree; the year
number, which no claim depends on, is a parameter). -/
def annualDatetimes (isLeapYear : Bool) (year : ℤ) : List LBDateTime :=
  (List.range' 1 12).flatMap (fun m =>
    (List.range' 1 (daysInMonth isLeapYear m)).flatMap (fun d =>
      (List.range 24).map (fun h => ⟨year, m, d, h⟩)))

/-- One decoded EPW cell value. -/
inductive EPWValue where
  | intV (n : ℤ)
  | numV (q : ℚ)
  | strV (s : String)
  deriving DecidableEq, Repr

/-- The uncertainty-flag string `from_missing_values` fills column 5 with
(`epw.py` line 154). -/
def uncertaintyFlags : String :=
  "?9?9?9?9E0?9?9?9?9?9?9?9?9?9?9?9?9?9?9?9*9*9?9?9?9"

/-- Embeds `field.missing if field.missing is not None else 0` (`epw.py` line
168). -/
def missingValueOf (k : ℤ) : ℚ :=
  match FIELDS k with
  | some f => f.missing.getD 0
  | none => 0

/-- Embeds `EPW.from_missing_values` (`epw.py` lines 104-178), data portion: the
35 value series (the `HourlyContinuousCollection` wrapping and headers are
external).  Columns 0-5 synthesize year, month, day, hour (with hour 0
written as 24), minute 0 and the uncertainty string per datetime; columns
6-34 repeat the field's missing sentinel once per hour. -/
def fromMissingValues (isLeapYear : Bool) (year : ℤ) : List (List EPWValue) :=
  let dts := annualDatetimes isLeapYear year
  [dts.map (fun dt => EPWValue.intV dt.year),
   dts.map (fun dt => EPWValue.intV (dt.month : ℤ)),
   dts.map (fun dt => EPWValue.intV (dt.day : ℤ)),
   dts.map (fun dt =>
     EPWValue.intV (if dt.hour = 0 then 24 else (dt.hour : ℤ))),
   dts.map (fun _ => EPWValue.intV 0),
   dts.map (fun _ => EPWValue.strV uncertaintyFlags)] ++
  (List.range' 6 29).map (fun k =>
    List.replicate dts.length (EPWValue.numV (missingValueOf (k : ℤ))))

theorem annualDatetimes_length (isLeapYear : Bool) (year : ℤ) :
    (annualDatetimes isLeapYear year).length = numAnnualHours isLeapYear := by
  cases isLeapYear <;>
    simp [annualDatetimes, List.flatMap, numAnnualHours, daysInMonth,
      List.range', Function.comp]

/-- Claim C4.  `EPW.from_missing_values` produces exactly 35 series, each of
length 8760 (or 8784 for a leap year); every entry of fields 6 through 34
equals that field's declared missing sentinel (0 where undeclared); and
fields 0-5 hold the synthesized year / month / day / hour-1-to-24 / zero
minute / uncertainty-flag values.  No file is read: the result is a pure
function of the leap-year flag (and the period's year number). -/
theorem epw_from_missing_values (isLeapYear : Bool) (year : ℤ) :
    (fromMissingValues isLeapYear year).length = 35 ∧
    (∀ s ∈ fromMissingValues isLeapYear year,
      s.length = numAnnualHours isLeapYear) ∧
    (∀ k : ℕ, 6 ≤ k → k ≤ 34 →
      (fromMissingValues isLeapYear year).getD k [] =
        List.replicate (numAnnualHours isLeapYear)
          (EPWValue.numV (missingValueOf (k : ℤ))) ∧
      ∀ v ∈ (fromMissingValues isLeapYear year).getD k [],
        v = EPWValue.numV (missingValueOf (k : ℤ))) ∧
    (∀ v ∈ (fromMissingValues isLeapYear year).getD 4 [],
      v = EPWValue.intV 0) ∧
    (∀ v ∈ (fromMissingValues isLeapYear year).getD 5 [],
      v = EPWValue.strV uncertaintyFlags) ∧
    (∀ v ∈ (fromMissingValues isLeapYear year).getD 3 [],
      ∃ h : ℤ, v = EPWValue.intV h ∧ 1 ≤ h ∧ h ≤ 24) := by
  have hlen := annualDatetimes_length isLeapYear year
  have hrange : List.range' 6 29 =
      [6, 7, 8, 9, 10, 11, 12, 13, 14, 15, 16, 17, 18, 19, 20, 21, 22, 23,
       24, 25, 26, 27, 28, 29, 30, 31, 32, 33, 34] := rfl
  refine ⟨?_, ?_, ?_, ?_, ?_, ?_⟩
  · simp [fromMissingValues, hrange]
  · intro s hs
    simp only [fromMissingValues, hrange, List.mem_append, List.mem_cons,
      List.mem_map, List.not_mem_nil, or_false] at hs
    rcases hs with hs | hs
    · rcases hs with rfl | rfl | rfl | rfl | rfl | rfl <;> simpa using hlen
    · obtain ⟨k, -, rfl⟩ := hs
      simpa using hlen
  · intro k h6 h34
    constructor
    · rw [← hlen]
      interval_cases k <;> with_unfolding_all rfl
    · intro v hv
      have hrep : (fromMissingValues isLeapYear year).getD k [] =
          List.replicate (annualDatetimes isLeapYear year).length
            (EPWValue.numV (missingValueOf (k : ℤ))) := by
        interval_cases k <;> with_unfolding_all rfl
      rw [hrep] at hv
      exact List.eq_of_mem_replicate hv
  · intro v hv
    simp only [fromMissingValues] at hv
    show v = EPWValue.intV 0
    have : v ∈ (annualDatetimes isLeapYear year).map
        (fun _ => EPWValue.intV 0) := hv
    obtain ⟨dt, -, rfl⟩ := List.mem_map.1 this
    rfl
  · intro v hv
    simp only [fromMissingValues] at hv
    have : v ∈ (annualDatetimes isLeapYear year).map
        (fun _ => EPWValue.strV uncertaintyFlags) := hv
    obtain ⟨dt, -, rfl⟩ := List.mem_map.1 this
    rfl
  · intro v hv
    simp only [fromMissingValues] at hv
    have : v ∈ (annualDatetimes isLeapYear year).map
        (fun dt => EPWValue.intV (if dt.hour = 0 then 24 else (dt.hour : ℤ)))
      := hv
    obtain ⟨dt, hdt, rfl⟩ := List.mem_map.1 this
    have hhour : dt.hour < 24 := by
      simp only [annualDatetimes, List.mem_flatMap, List.mem_map,
        List.mem_range] at hdt
      obtain ⟨m, -, d, -, h, hh, heq⟩ := hdt
      rw [← heq]
      exact hh
    by_cases h0 : dt.hour = 0
    · exact ⟨24, by rw [h0]; simp, by omega, by omega⟩
    · refine ⟨(dt.hour : ℤ), by simp [h0], by omega, by omega⟩

/-- Witness for C4 at the non-leap year. -/
theorem epw_from_missing_values_witness :
    (fromMissingValues false 2017).length = 35 ∧
    (fromMissingValues false 2017).getD 6 [] =
      List.replicate 8760 (EPWValue.numV (missingValueOf 6)) := by
  have h := epw_from_missing_values false 2017
  exact ⟨h.1, (h.2.2.1 6 (by decide) (by decide)).1⟩

/-! ### DataType serialization (`datatype/base.py`, `DataTypeBase.from_dict`
lines 69-100 and `DataTypeBase.to_dict` lines 178-185)

A data-type instance is its variant class plus an optional name override
(`_name`); `name` falls back to the class name with a space inserted before
each capital that follows a word character (`re.sub(r"(?<=\w)([A-Z])", r"
\1", ...)`).  The lazily-scanned registry `_TYPES` (class name → variant) is
a parameter here, as a map from class name to the variant's base unit; the
variant modules themselves are external to the embedded sources.
`from_dict` decides between returning a fresh canonical instance and one
with the name overridden by testing
`data['data_type'] == data['name'].title().replace(' ', '')`, and raises
the unknown-data-type `ValueError` when the tag resolves to no variant. -/

/-- Python `str.title()` for the strings at hand: a letter that follows a
non-letter (or starts the string) is uppercased, any other letter is
lowercased. -/
def pyTitleGo : List Char → Bool → List Char
  | [], _ => []
  | c :: rest, prevAlpha =>
    (if c.isAlpha then (if prevAlpha then c.toLower else c.toUpper) else c) ::
      pyTitleGo rest c.isAlpha

/-- Embeds `s.title()`. -/
def pyTitle (s : String) : String := ⟨pyTitleGo s.data false⟩

/-- Embeds `s.replace(' ', '')`. -/
def despace (s : String) : String := ⟨s.data.filter (fun c => c ≠ ' ')⟩

/-- Embeds `s.title().replace(' ', '')`. -/
def pyTitleDespace (s : String) : String := despace (pyTitle s)

/-- Embeds `re.sub(r"(?<=\w)([A-Z])", r" \1", className)`: insert a space before
each capital letter that follows a word character. -/
def insertSpacesGo : List Char → Char → List Char
  | [], _ => []
  | c :: rest, prev =>
    if c.isUpper ∧ (prev.isAlphanum ∨ prev = '_') then
      ' ' :: c :: insertSpacesGo rest c
    else c :: insertSpacesGo rest c

/-- The default display name derived from a variant's class name
(`DataTypeBase.name`, `datatype/base.py` lines 222-228). -/
def defaultDisplayName (s : String) : String :=
  match s.data with
  | [] => ""
  | c :: rest => ⟨c :: insertSpacesGo rest c⟩

/-- A data-type instance: the variant class name (`"GenericType"` for the
generic variant), the base unit `units[0]`, and the optional `_name`
override. -/
structure DataTypeInstance where
  cls : String
  baseUnit : String
  nameOverride : Option String
  deriving DecidableEq, Repr

/-- Embeds `DataTypeBase.name` (`datatype/base.py` lines 222-228). -/
def displayName (d : DataTypeInstance) : String :=
  match d.nameOverride with
  | some n => n
  | none => defaultDisplayName d.cls

/-- The serialized form produced by `to_dict` and consumed by `from_dict`
(the constant `'type': 'DataTypeBase'` tag is omitted). -/
structure DataTypeDict where
  name : String
  data_type : String
  base_unit : String
  deriving DecidableEq, Repr

/-- Embeds `DataTypeBase.to_dict` (`datatype/base.py` lines 178-185). -/
def toDict (d : DataTypeInstance) : DataTypeDict :=
  ⟨displayName d, d.cls, d.baseUnit⟩

/-- Embeds `DataTypeBase.from_dict` (`datatype/base.py` lines 69-100), with the
memoized `_TYPES` registry supplied as an association list from class name
to base unit (the registry scan excludes `GenericType`, which gets its own
branch). -/
def fromDict (registry : List (String × String)) (d : DataTypeDict) :
    Except PyExc DataTypeInstance :=
  if d.data_type = "GenericType" then
    .ok ⟨"GenericType", d.base_unit, some d.name⟩
  else
    match registry.find? (fun kv => kv.1 == d.data_type) with
    | some kv =>
      if d.data_type = pyTitleDespace d.name then
        .ok ⟨kv.1, kv.2, none⟩
      else
        .ok ⟨kv.1, kv.2, some d.name⟩
    | none => .error .valueError

/-- Claim C7, counterexample to the original statement: serializing a
Dry-Bulb-Temperature instance whose name was overridden to the lower-case
`"dry bulb temperature"` and deserializing it yields the fresh canonical
instance — its name title-cases back to the class name, so `from_dict`
takes the fresh-instance branch — and the display name comes back as
`"Dry Bulb Temperature"`, not the serialized name. -/
theorem datatype_roundtrip_counterexample :
    fromDict [("DryBulbTemperature", "C")]
      (toDict ⟨"DryBulbTemperature", "C", some "dry bulb temperature"⟩) =
      .ok ⟨"DryBulbTemperature", "C", none⟩ ∧
    displayName (⟨"DryBulbTemperature", "C", none⟩ : DataTypeInstance) =
      "Dry Bulb Temperature" ∧
    displayName ⟨"DryBulbTemperature", "C", some "dry bulb temperature"⟩ =
      "dry bulb temperature" ∧
    ("Dry Bulb Temperature" : String) ≠ "dry bulb temperature" := by
  refine ⟨rfl, rfl, rfl, by decide⟩

/-- Claim C7 (amended).  `from_dict (to_dict d)` succeeds whenever the type
tag resolves in the registry, reproducing the class and base unit exactly;
the display name is reproduced whenever the serialized name either is the
variant's default display name or does not title-case back to the class
name (the code's actual fresh-instance test); the fresh canonical instance
is returned exactly when the serialized name title-cases to the class name,
the name override otherwise; `GenericType` instances round-trip their name
and unit unconditionally; and `from_dict` fails with the unknown-data-type
`ValueError` when the tag is not a recognized variant. -/
theorem datatype_serialization_roundtrip (registry : List (String × String))
    (d : DataTypeInstance)
    (hreg : d.cls ≠ "GenericType" →
      registry.find? (fun kv => kv.1 == d.cls) = some (d.cls, d.baseUnit)) :
    (∃ d', fromDict registry (toDict d) = .ok d' ∧
      d'.cls = d.cls ∧ d'.baseUnit = d.baseUnit ∧
      ((pyTitleDespace (displayName d) ≠ d.cls ∨
        displayName d = defaultDisplayName d.cls) →
        displayName d' = displayName d) ∧
      (d.cls ≠ "GenericType" →
        (d.cls = pyTitleDespace (displayName d) → d'.nameOverride = none) ∧
        (d.cls ≠ pyTitleDespace (displayName d) →
          d'.nameOverride = some (displayName d)))) ∧
    (∀ dict : DataTypeDict, dict.data_type ≠ "GenericType" →
      registry.find? (fun kv => kv.1 == dict.data_type) = none →
      fromDict registry dict = .error .valueError) := by
  constructor
  · by_cases hgen : d.cls = "GenericType"
    · refine ⟨⟨"GenericType", d.baseUnit, some (displayName d)⟩, ?_, ?_⟩
      · unfold fromDict toDict
        rw [if_pos (by simpa using hgen)]
      · exact ⟨hgen.symm, rfl, fun _ => rfl, fun hcon => absurd hgen hcon⟩
    · have hfind := hreg hgen
      by_cases hcond : d.cls = pyTitleDespace (displayName d)
      · refine ⟨⟨d.cls, d.baseUnit, none⟩, ?_, rfl, rfl, ?_, ?_⟩
        · unfold fromDict toDict
          rw [if_neg (by simpa using hgen)]
          simp only [hfind]
          rw [if_pos (by simpa using hcond)]
        · rintro (hne | hdef)
          · exact absurd hcond hne.symm
          · show defaultDisplayName d.cls = displayName d
            exact hdef.symm
        · exact fun _ => ⟨fun _ => rfl, fun hne => absurd hcond hne⟩
      · refine ⟨⟨d.cls, d.baseUnit, some (displayName d)⟩, ?_, rfl, rfl,
          fun _ => rfl, fun _ => ⟨fun hc => absurd hc hcond, fun _ => rfl⟩⟩
        unfold fromDict toDict
        rw [if_neg (by simpa using hgen)]
        simp only [hfind]
        rw [if_neg (by simpa using hcond)]
  · intro dict hng hnone
    unfold fromDict
    rw [if_neg hng]
    simp only [hnone]

/-- Witness for C7 (amended): the canonical Dry-Bulb-Temperature instance
round-trips to itself, and an unknown tag is rejected. -/
theorem datatype_serialization_roundtrip_witness :
    fromDict [("DryBulbTemperature", "C")]
      (toDict ⟨"DryBulbTemperature", "C", none⟩) =
      .ok ⟨"DryBulbTemperature", "C", none⟩ ∧
    fromDict [("DryBulbTemperature", "C")] ⟨"Mystery", "MysteryType", "u"⟩ =
      .error .valueError := by
  have h := datatype_serialization_roundtrip [("DryBulbTemperature", "C")]
    ⟨"DryBulbTemperature", "C", none⟩ (fun _ => rfl)
  refine ⟨?_, h.2 ⟨"Mystery", "MysteryType", "u"⟩ (by decide) rfl⟩
  obtain ⟨d', hok, -, -, -, hover⟩ := h.1
  have hcanon : d' = ⟨"DryBulbTemperature", "C", none⟩ := by
    have heval : fromDict [("DryBulbTemperature", "C")]
        (toDict ⟨"DryBulbTemperature", "C", none⟩) =
        .ok ⟨"DryBulbTemperature", "C", none⟩ := rfl
    rw [heval] at hok
    injection hok with h1
    exact h1.symm
  rw [hcanon] at hok
  exact hok

end Ladybug

